import Mathlib

/-!
A shallow embedding of the core of `app.py` (the AI fitness coach):
`ferramenta_matematica_treino`, `generate_plan` with its inner helper
`pick_exercises`, and `render_plan_markdown`.  Python floats are modelled as
rationals and `round(x, n)` as rounding `x * 10 ^ n` to the nearest integer;
the process-wide random source (`random.sample` / `random.shuffle`) is
modelled as an oracle indexed by the number of random calls made so far,
constrained only by the contracts of those two functions, so that a theorem
quantified over all valid oracles covers every possible outcome of the
random draws.
-/

namespace FitnessCoach

/-- Model of Python's `round(x, ndigits)` on exact rationals: round
`x * 10 ^ ndigits` to the nearest integer and scale back.  (Python rounds
ties to even on binary floats; no value in this development is a tie.) -/
def roundTo (ndigits : Nat) (x : ℚ) : ℚ :=
  ((round (x * 10 ^ ndigits) : ℤ) : ℚ) / 10 ^ ndigits

/-- Model of Python `str.lower()`, character by character (ASCII case
mapping, which covers every goal and experience key the code compares
against). -/
def py_lower (s : String) : String :=
  ⟨s.data.map Char.toLower⟩

/-- Model of Python `str.strip()`: drop whitespace from both ends. -/
def py_strip (s : String) : String :=
  ⟨((s.data.dropWhile Char.isWhitespace).reverse.dropWhile
      Char.isWhitespace).reverse⟩

/-- `normalizar_objetivo` from app.py: strip and lowercase, empty on falsy. -/
def normalizar_objetivo (goal : String) : String :=
  if goal = "" then "" else py_lower (py_strip goal)

/-- `normalizar_experiencia` from app.py. -/
def normalizar_experiencia (level : String) : String :=
  if level = "" then "" else py_lower (py_strip level)

/-- Per-goal preset constants (`goal_presets` values in
`ferramenta_matematica_treino`). -/
structure GoalPreset where
  met : ℚ
  duration_hours : ℚ
  rep_range : String
  intensity : String
deriving DecidableEq

/-- The `goal_presets` table of `ferramenta_matematica_treino`. -/
def goal_presets : List (String × GoalPreset) :=
  [("hipertrofia", ⟨6.0, 1.2, "6-12", "70-80% 1RM"⟩),
   ("emagrecimento", ⟨5.5, 1.15, "12-15", "Circuitos com pausa curta"⟩),
   ("forca", ⟨6.8, 1.25, "3-6", "80-90% 1RM"⟩),
   ("condicionamento", ⟨7.2, 1.05, "10-15", "Intervalos moderados"⟩)]

/-- `goal_presets.get(goal_key, goal_presets["hipertrofia"])` from app.py:
the preset for a goal key, falling back to the hypertrophy preset. -/
def preset_for (goal_key : String) : GoalPreset :=
  (goal_presets.lookup goal_key).getD
    ((goal_presets.lookup "hipertrofia").getD ⟨0, 0, "", ""⟩)

/-- The `volume_table` of `ferramenta_matematica_treino`. -/
def volume_table : List (String × String) :=
  [("iniciante", "14-18 séries por grupamento"),
   ("intermediario", "18-22 séries por grupamento"),
   ("avancado", "22-26 séries por grupamento")]

/-- The analytics dictionary returned by `ferramenta_matematica_treino`. -/
structure AnalyticsRecord where
  goal : String
  estimated_session_calories : ℚ
  estimated_weekly_calories : ℚ
  bmi : Option ℚ
  recommended_rep_range : String
  recommended_intensity : String
  volume_per_session : String
  sessions_per_week : Nat
  experience_level : String
deriving DecidableEq

/-- `ferramenta_matematica_treino` from app.py.  `if height_cm:` is Python
truthiness, false for both `None` and `0.0`. -/
def ferramenta_matematica_treino (age : Int) (weight_kg : ℚ)
    (training_frequency : Nat) (primary_goal : String)
    (height_cm : Option ℚ) (experience_level : String) : AnalyticsRecord :=
  let goal_key := normalizar_objetivo primary_goal
  let preset := preset_for goal_key
  let bmi : Option ℚ :=
    match height_cm with
    | none => none
    | some h =>
        if h = 0 then none
        else
          let height_m := h / 100
          some (roundTo 2 (weight_kg / height_m ^ 2))
  let session_calories := roundTo 1 (weight_kg * preset.met * preset.duration_hours)
  let weekly_calories := roundTo 1 (session_calories * (training_frequency : ℚ))
  let volume := (volume_table.lookup (normalizar_experiencia experience_level)).getD
    "18-22 séries por grupamento"
  { goal := goal_key
    estimated_session_calories := session_calories
    estimated_weekly_calories := weekly_calories
    bmi := bmi
    recommended_rep_range := preset.rep_range
    recommended_intensity := preset.intensity
    volume_per_session := volume
    sessions_per_week := training_frequency
    experience_level := normalizar_experiencia experience_level }

/-- The normalized user profile dictionary built by `main` and consumed by
`generate_plan`. -/
structure UserProfile where
  age : Int
  weight_kg : ℚ
  training_frequency : Nat
  primary_goal : String
  experience_level : String
  restrictions : Option String
  additional_notes : Option String
  height_cm : Option ℚ
deriving DecidableEq

/-- The random source: `sample i l k` / `shuffle i l` are the results of the
`i`-th random call of the run when it is `random.sample(l, k)` /
`random.shuffle(l)`.  Indexing by the call count lets one oracle describe an
arbitrary stateful random stream. -/
structure RandomOracle where
  sample : Nat → List String → Nat → List String
  shuffle : Nat → List String → List String

/-- The contracts of `random.sample` (when it does not raise: `k` elements,
all drawn from the population) and `random.shuffle` (a permutation, of which
only length- and membership-preservation are needed here). -/
def RandomOracle.Valid (o : RandomOracle) : Prop :=
  (∀ i l k, k ≤ l.length → (o.sample i l k).length = k) ∧
  (∀ i l k x, x ∈ o.sample i l k → x ∈ l) ∧
  (∀ i l, (o.shuffle i l).length = l.length) ∧
  (∀ i l x, x ∈ o.shuffle i l → x ∈ l)

/-- A concrete valid oracle: sampling takes the first `k` elements and
shuffling leaves the list unchanged. -/
def takeOracle : RandomOracle :=
  { sample := fun _ l k => l.take k
    shuffle := fun _ l => l }

/-- The `exercise_dict` of `generate_plan`: muscle group to catalog list. -/
def exercise_dict : List (String × List String) :=
  [("chest", ["Supino reto com barra", "Supino inclinado com halteres",
              "Crucifixo na máquina", "Peck deck", "Flexões"]),
   ("triceps", ["Tríceps pulley", "Tríceps testa", "Mergulho banco",
                "Tríceps corda", "Kickback"]),
   ("back", ["Puxada frontal", "Remada curvada com barra",
             "Remada unilateral com haltere", "Pulldown", "Levantamento terra"]),
   ("biceps", ["Rosca direta com barra", "Rosca alternada", "Rosca martelo",
               "Rosca concentrada", "Rosca Scott"]),
   ("legs", ["Agachamento livre", "Leg press", "Cadeira extensora",
             "Cadeira flexora", "Afundo com halteres", "Panturrilha em pé"]),
   ("shoulders", ["Desenvolvimento com barra", "Desenvolvimento com halteres",
                  "Elevação lateral", "Elevação frontal", "Remada alta"]),
   ("glutes", ["Agachamento sumô", "Peso morto stiff", "Glute bridge",
               "Cadeira abdutora", "Elevação de quadril"]),
   ("abs", ["Prancha", "Abdominal supra", "Elevação de pernas",
            "Abdominal oblíquo", "Prancha lateral"])]

/-- The `cardio_exercises` list of `generate_plan`. -/
def cardio_exercises : List String :=
  ["Burpees", "Mountain climbers", "Agachamento com salto", "Polichinelos",
   "Corrida estacionária", "Pular corda", "Kettlebell swing",
   "Clean and press com halteres leves", "Flexões", "Abdominal bicicleta"]

/-- A split template: name, target muscle groups, focus label. -/
structure Split where
  name : String
  muscles : List String
  focus : String
deriving DecidableEq

/-- `hypertrophy_splits` from `generate_plan`. -/
def hypertrophy_splits : List Split :=
  [⟨"Treino A - Peito e Tríceps", ["chest", "triceps"], "Peito e Tríceps"⟩,
   ⟨"Treino B - Costas e Bíceps", ["back", "biceps"], "Costas e Bíceps"⟩,
   ⟨"Treino C - Pernas e Ombros", ["legs", "shoulders"], "Pernas e Ombros"⟩,
   ⟨"Treino D - Peito e Costas", ["chest", "back"], "Peito e Costas"⟩,
   ⟨"Treino E - Pernas e Glúteos", ["legs", "glutes"], "Pernas e Glúteos"⟩,
   ⟨"Treino F - Ombros e Braços", ["shoulders", "biceps", "triceps"],
    "Ombros e Braços"⟩]

/-- `strength_splits` from `generate_plan`. -/
def strength_splits : List Split :=
  [⟨"Treino A - Agachamento", ["legs", "glutes", "back"], "Força em Agachamento"⟩,
   ⟨"Treino B - Supino e Press", ["chest", "shoulders", "triceps"],
    "Força em Supino"⟩,
   ⟨"Treino C - Deadlift", ["legs", "back"], "Força em Deadlift"⟩,
   ⟨"Treino D - Full Body", ["legs", "back", "chest", "shoulders"],
    "Força Total"⟩]

/-- `conditioning_splits` from `generate_plan`. -/
def conditioning_splits : List Split :=
  [⟨"Circuito HIIT", [], "Alta intensidade"⟩,
   ⟨"Circuito de Resistência", [], "Resistência Muscular"⟩,
   ⟨"Circuito Cardio e Força", [], "Cardio e Força"⟩,
   ⟨"Circuito Funcional", [], "Funcional"⟩]

/-- `emagrecimento_splits` from `generate_plan`. -/
def emagrecimento_splits : List Split :=
  [⟨"Circuito A", [], "Circuito"⟩,
   ⟨"Circuito B", [], "Circuito"⟩,
   ⟨"Circuito C", [], "Circuito"⟩,
   ⟨"Circuito D", [], "Circuito"⟩]

/-- The catalog list for one muscle group:
`exercise_dict.get(muscle, [])` in `pick_exercises`. -/
def muscle_choices (muscle : String) : List String :=
  (exercise_dict.lookup muscle).getD []

/-- The per-muscle sampling loop of `pick_exercises` for muscle-split goals:
for each muscle group, when its catalog list is nonempty, draw
`min 2 len` exercises (one random call each) and concatenate in muscle
order.  Returns the drawn list and the updated random-call counter. -/
def gather_exercises (o : RandomOracle) : List String → Nat → List String × Nat
  | [], c => ([], c)
  | muscle :: rest, c =>
      let choices := muscle_choices muscle
      if choices.isEmpty then gather_exercises o rest c
      else
        let selected := o.sample c choices (min 2 choices.length)
        let r := gather_exercises o rest (c + 1)
        (selected ++ r.1, r.2)

/-- `pick_exercises` from `generate_plan`: muscle-split goals gather up to 2
per muscle group, shuffle, and keep at most 6; every other goal draws 5 from
the cardio list.  `c` is the running random-call counter. -/
def pick_exercises (o : RandomOracle) (c : Nat) (muscles : List String)
    (obj : String) : List String × Nat :=
  if obj = "hipertrofia" ∨ obj = "forca" then
    let g := gather_exercises o muscles c
    ((o.shuffle g.2 g.1).take 6, g.2 + 1)
  else
    (o.sample c cardio_exercises 5, c + 1)

/-- `total_sessions` from `generate_plan`. -/
def total_sessions : Nat := 12

/-- The split-list dispatch of the session loop in `generate_plan`: note the
`else` branch hands every unrecognized goal the `emagrecimento_splits`. -/
def splits_for (goal : String) : List Split :=
  if goal = "hipertrofia" then hypertrophy_splits
  else if goal = "forca" then strength_splits
  else if goal = "condicionamento" then conditioning_splits
  else emagrecimento_splits

/-- `splits[sessions_generated % len(splits)]` from the session loop. -/
def split_at_counter (goal : String) (sg : Nat) : Split :=
  (splits_for goal).getD (sg % (splits_for goal).length) ⟨"", [], ""⟩

/-- One structured exercise prescription of a session. -/
structure ExercisePrescription where
  exercise : String
  sets : Nat
  reps : String
  rest : String
  notes : String
deriving DecidableEq

/-- The per-goal prescription branch of the session loop: hypertrophy,
strength, fat-loss, and (the `else` branch) conditioning values. -/
def make_prescription (goal : String) (ex : String) : ExercisePrescription :=
  if goal = "hipertrofia" then ⟨ex, 4, "8-12", "60-90s", ""⟩
  else if goal = "forca" then ⟨ex, 4, "4-6", "2-3min", ""⟩
  else if goal = "emagrecimento" then ⟨ex, 3, "12-15", "30s", ""⟩
  else ⟨ex, 3, "10-15", "30-60s", ""⟩

/-- One session dictionary of the generated plan. -/
structure Session where
  day : Nat
  name : String
  focus : String
  resumo : String
  exercises : List ExercisePrescription
  conditioning : Option String
  mobility : Option String
  progression : Option String
deriving DecidableEq

/-- One training week of the generated plan. -/
structure Week where
  week : Nat
  focus : String
  sessions : List Session
deriving DecidableEq

/-- The `overview` part of the plan payload. -/
structure Overview where
  primary_goal : String
  focus_points : List String
  macrocycle_length_weeks : Nat
deriving DecidableEq

/-- The plan payload returned by `generate_plan`. -/
structure Plan where
  overview : Overview
  guidelines : List String
  training_weeks : List Week
  recovery : List String
  nutrition_tips : List String
  progression_strategy : String
deriving DecidableEq

/-- The inner day loop of `generate_plan`: one session per remaining day
slot, stopping (the `break`) once `sessions_generated` reaches
`total_sessions`.  Arguments after the day list: `sessions_generated` and
the random-call counter; returns the sessions plus both updated counters. -/
def build_sessions (o : RandomOracle) (goal : String) :
    List Nat → Nat → Nat → List Session × Nat × Nat
  | [], sg, c => ([], sg, c)
  | day :: rest, sg, c =>
      if total_sessions ≤ sg then ([], sg, c)
      else
        let split := split_at_counter goal sg
        let pe := pick_exercises o c split.muscles goal
        let session : Session :=
          { day := day
            name := split.name
            focus := split.focus
            resumo := ""
            exercises := pe.1.map (make_prescription goal)
            conditioning := none
            mobility := none
            progression := none }
        let r := build_sessions o goal rest (sg + 1) pe.2
        (session :: r.1, r.2)

/-- The outer week loop of `generate_plan`: each week runs the day loop over
`range(1, freq + 1)`, appends the week, and then breaks once
`sessions_generated` reached `total_sessions`. -/
def build_weeks (o : RandomOracle) (goal : String) (freq : Nat) :
    List Nat → Nat → Nat → List Week × Nat × Nat
  | [], sg, c => ([], sg, c)
  | wnum :: rest, sg, c =>
      let inner := build_sessions o goal (List.range' 1 freq) sg c
      let wk : Week := { week := wnum, focus := "Semana de " ++ goal,
                         sessions := inner.1 }
      if total_sessions ≤ inner.2.1 then ([wk], inner.2)
      else
        let r := build_weeks o goal freq rest inner.2.1 inner.2.2
        (wk :: r.1, r.2)

/-- `generate_plan` from app.py.  It reads only `primary_goal` and
`training_frequency` from the profile and never touches `analytics`. -/
def generate_plan (o : RandomOracle) (user_profile : UserProfile)
    (analytics : AnalyticsRecord) : Plan :=
  let goal := user_profile.primary_goal
  let freq := user_profile.training_frequency
  let weeks := (total_sessions + freq - 1) / freq
  let tw := build_weeks o goal freq (List.range' 1 weeks) 0 0
  { overview := { primary_goal := goal, focus_points := [goal],
                  macrocycle_length_weeks := weeks }
    guidelines :=
      ["Realize um aquecimento de 5-10 minutos antes das sessões",
       "Mantenha-se hidratado durante todo o treino",
       "Foque na execução correta dos movimentos"]
    training_weeks := tw.1
    recovery :=
      ["Durma pelo menos 7-8 horas por noite",
       "Inclua alongamentos após os treinos",
       "Faça dias de descanso ativo conforme necessário"]
    nutrition_tips :=
      ["Ajuste sua alimentação de acordo com o objetivo",
       "Inclua proteínas magras e carboidratos complexos",
       "Beba bastante água"]
    progression_strategy :=
      "Aumente gradualmente a carga ou repetições a cada semana conforme se sentir confortável." }

/-- All sessions of a plan in order, across week boundaries. -/
def plan_sessions (p : Plan) : List Session :=
  (p.training_weeks.map Week.sessions).flatten

/-- Checked variant of `ferramenta_matematica_treino`: returns `none`
exactly where the Python body could raise — the `goal_presets["hipertrofia"]`
fallback lookup missing, or the BMI division hitting a zero denominator past
the truthiness guard. -/
def ferramenta_matematica_treino_chk (age : Int) (weight_kg : ℚ)
    (training_frequency : Nat) (primary_goal : String)
    (height_cm : Option ℚ) (experience_level : String) :
    Option AnalyticsRecord :=
  if (goal_presets.lookup "hipertrofia").isNone then none
  else
    match height_cm with
    | some h =>
        if h ≠ 0 ∧ (h / 100) ^ 2 = 0 then none
        else some (ferramenta_matematica_treino age weight_kg
          training_frequency primary_goal (some h) experience_level)
    | none => some (ferramenta_matematica_treino age weight_kg
        training_frequency primary_goal none experience_level)

/-- Checked variant of `generate_plan`: returns `none` exactly where the
Python body could raise — `weeks = (12 + freq - 1) // freq` dividing by a
zero frequency, the split indexing `splits[sg % len(splits)]` hitting an
empty split list, or `random.sample(cardio_exercises, 5)` asked for more
elements than the cardio catalog holds (the muscle branch samples
`min(2, len)`, which can never exceed the population). -/
def generate_plan_chk (o : RandomOracle) (user_profile : UserProfile)
    (analytics : AnalyticsRecord) : Option Plan :=
  if user_profile.training_frequency = 0 then none
  else if (splits_for user_profile.primary_goal).length = 0 then none
  else if ¬(user_profile.primary_goal = "hipertrofia" ∨
            user_profile.primary_goal = "forca") ∧
          cardio_exercises.length < 5 then none
  else some (generate_plan o user_profile analytics)

/-- Model of `"\n".join(lines)` in `render_plan_markdown`. -/
def join_lines : List String → String
  | [] => ""
  | [a] => a
  | a :: b :: rest => a ++ "\n" ++ join_lines (b :: rest)

/-- Model of `" ".join(parts)` in `render_plan_markdown`. -/
def join_with_space : List String → String
  | [] => ""
  | [a] => a
  | a :: b :: rest => a ++ " " ++ join_with_space (b :: rest)

/-- Model of `", ".join(...)` in `render_plan_markdown`. -/
def join_with_commas : List String → String
  | [] => ""
  | [a] => a
  | a :: b :: rest => a ++ ", " ++ join_with_commas (b :: rest)

/-- One exercise line of `render_plan_markdown`: sets and reps are always
present in a generated plan, the rest string is guarded by truthiness. -/
def render_exercise_line (ex : ExercisePrescription) : String :=
  let parts : List String :=
    [toString ex.sets ++ "x"] ++ [ex.reps] ++
      (if ex.rest ≠ "" then ["descanso " ++ ex.rest] else [])
  let rep_str := join_with_space parts
  let line :=
    if ex.exercise ≠ "" then "- " ++ ex.exercise ++ " " ++ rep_str else "-"
  if ex.notes ≠ "" then line ++ " – " ++ ex.notes else line

/-- The lines rendered for one session (with its 1-based index within the
week, used when the session has no name) in `render_plan_markdown`. -/
def render_session_lines (session_idx : Nat) (session : Session) :
    List String :=
  let name :=
    if session.name ≠ "" then session.name
    else "Sessão " ++ toString session_idx
  let header := if name ≠ "" then "#### " ++ name else "#### Sessão"
  let header :=
    if session.focus ≠ "" then header ++ " – " ++ session.focus else header
  [header] ++
  (if session.resumo ≠ "" then [session.resumo] else []) ++
  (if session.exercises ≠ [] then
      ["##### Exercícios"] ++ session.exercises.map render_exercise_line
    else []) ++
  (match session.conditioning with
   | some s => if s ≠ "" then ["- **Condicionamento:** " ++ s] else []
   | none => []) ++
  (match session.mobility with
   | some s => if s ≠ "" then ["- **Mobilidade:** " ++ s] else []
   | none => []) ++
  (match session.progression with
   | some s => if s ≠ "" then ["- **Progressão:** " ++ s] else []
   | none => []) ++
  [""]

/-- The lines rendered for one training week in `render_plan_markdown`. -/
def render_week_lines (week : Week) : List String :=
  let header := "### Semana " ++ toString week.week
  let header :=
    if week.focus ≠ "" then header ++ ": " ++ week.focus else header
  [header] ++
  (week.sessions.enum.map
    (fun is => render_session_lines (is.1 + 1) is.2)).flatten

/-- The number of exercises the muscle branch of `pick_exercises` draws for
a given muscle list before shuffling and truncation: `min 2 len` per muscle
group whose catalog list is nonempty. -/
def glen : List String → Nat
  | [] => 0
  | m :: rest =>
      (if (muscle_choices m).isEmpty then 0 else min 2 (muscle_choices m).length)
        + glen rest

/-- The session count of each successive week the scheduler emits, given the
weekly frequency `f`, the number of remaining week slots, and the number of
sessions already generated. -/
def week_lens (f : Nat) : Nat → Nat → List Nat
  | 0, _ => []
  | n + 1, sg =>
      let t := min f (total_sessions - sg)
      if total_sessions ≤ sg + t then [t] else t :: week_lens f n (sg + t)

/-- A concrete profile used by the closed witnesses. -/
def demo_profile (goal : String) (freq : Nat) : UserProfile :=
  ⟨25, 75, freq, goal, "iniciante", none, none, none⟩

/-- A second concrete profile, differing from `demo_profile "hipertrofia" 3`
everywhere except goal and frequency. -/
def demo_profile2 : UserProfile :=
  ⟨40, 90, 3, "hipertrofia", "avancado", some "dor no ombro",
   some "observações", some 180⟩

/-- A concrete analytics record used by the closed witnesses. -/
def demo_analytics : AnalyticsRecord :=
  ⟨"hipertrofia", 576, 2304, none, "6-12", "70-80% 1RM",
   "14-18 séries por grupamento", 4, "iniciante"⟩

/-- A second concrete analytics record, different from `demo_analytics` in
every field. -/
def demo_analytics2 : AnalyticsRecord :=
  ⟨"forca", 638, 1914, some (2449 / 100), "3-6", "80-90% 1RM",
   "22-26 séries por grupamento", 3, "avancado"⟩

/-- The plan of the hypertrophy frequency-5 demo run with the take-first
oracle. -/
def demo_plan : Plan :=
  generate_plan takeOracle (demo_profile "hipertrofia" 5) demo_analytics

/-- The eighth session (0-based index 7) of `demo_plan`. -/
def demo_session7 : Session :=
  (plan_sessions demo_plan).getD 7 ⟨0, "", "", "", [], none, none, none⟩

/-- The first session of `demo_plan`. -/
def demo_session0 : Session :=
  (plan_sessions demo_plan).getD 0 ⟨0, "", "", "", [], none, none, none⟩

/-- The plan of the fat-loss frequency-4 demo run with the take-first
oracle. -/
def demo_plan_fat : Plan :=
  generate_plan takeOracle (demo_profile "emagrecimento" 4) demo_analytics

/-- The first session of `demo_plan_fat`. -/
def demo_session_fat : Session :=
  (plan_sessions demo_plan_fat).getD 0 ⟨0, "", "", "", [], none, none, none⟩

/-- The first exercise of the first session of `demo_plan_fat`. -/
def demo_exercise_fat : ExercisePrescription :=
  demo_session_fat.exercises.getD 0 ⟨"", 0, "", "", ""⟩

/-- `render_plan_markdown` from app.py.  The source tests each section with
Python truthiness before emitting it; the `overview` dictionary built by
`generate_plan` is never empty, so its section header is unconditional
here. -/
def render_plan_markdown (plan_payload : Plan) : String :=
  let overview := plan_payload.overview
  let lines : List String :=
    ["## Visão geral"] ++
    (if overview.primary_goal ≠ "" then
        ["- **Objetivo principal:** " ++ overview.primary_goal] else []) ++
    (if overview.focus_points ≠ [] then
        ["- **Pontos de foco:** " ++ join_with_commas overview.focus_points]
      else []) ++
    (if overview.macrocycle_length_weeks ≠ 0 then
        ["- **Duração do macrociclo:** " ++
         toString overview.macrocycle_length_weeks ++ " semanas"] else []) ++
    [""] ++
    (if plan_payload.guidelines ≠ [] then
        ["## Diretrizes"] ++ plan_payload.guidelines.map ("- " ++ ·) ++ [""]
      else []) ++
    (if plan_payload.training_weeks ≠ [] then
        ["## Semanas de treino"] ++
        (plan_payload.training_weeks.map render_week_lines).flatten ++ [""]
      else []) ++
    (if plan_payload.recovery ≠ [] then
        ["## Recuperação"] ++ plan_payload.recovery.map ("- " ++ ·) ++ [""]
      else []) ++
    (if plan_payload.nutrition_tips ≠ [] then
        ["## Dicas de nutrição"] ++
        plan_payload.nutrition_tips.map ("- " ++ ·) ++ [""]
      else []) ++
    (if plan_payload.progression_strategy ≠ "" then
        ["## Estratégia de progressão", plan_payload.progression_strategy, ""]
      else [])
  join_lines lines

/-! Helper lemmas about the random-oracle contracts and `pick_exercises`. -/

theorem take_oracle_valid : takeOracle.Valid := by
  refine ⟨?_, ?_, ?_, ?_⟩
  · intro i l k hk
    simp [takeOracle, List.length_take, Nat.min_eq_left hk]
  · intro i l k x hx
    exact List.take_subset _ _ hx
  · intro i l
    rfl
  · intro i l x hx
    exact hx

theorem gather_exercises_length (o : RandomOracle) (ho : o.Valid) :
    ∀ (ms : List String) (c : Nat),
      (gather_exercises o ms c).1.length = glen ms := by
  intro ms
  induction ms with
  | nil => intro c; rfl
  | cons m rest ih =>
      intro c
      by_cases hm : (muscle_choices m).isEmpty
      · simp [gather_exercises, glen, hm, ih]
      · have hs := ho.1 c (muscle_choices m) (min 2 (muscle_choices m).length)
          (Nat.min_le_right _ _)
        simp [gather_exercises, glen, hm, ih, hs]

theorem gather_exercises_mem (o : RandomOracle) (ho : o.Valid) :
    ∀ (ms : List String) (c : Nat) (x : String),
      x ∈ (gather_exercises o ms c).1 → ∃ m ∈ ms, x ∈ muscle_choices m := by
  intro ms
  induction ms with
  | nil => intro c x hx; simp [gather_exercises] at hx
  | cons m rest ih =>
      intro c x hx
      by_cases hm : (muscle_choices m).isEmpty
      · simp only [gather_exercises, hm, if_pos] at hx
        obtain ⟨m2, hm2, hx2⟩ := ih c x hx
        exact ⟨m2, List.mem_cons_of_mem _ hm2, hx2⟩
      · simp only [gather_exercises, hm, if_neg, Bool.false_eq_true,
          not_false_iff, List.mem_append] at hx
        rcases hx with hx | hx
        · exact ⟨m, List.mem_cons_self _ _, ho.2.1 _ _ _ _ hx⟩
        · obtain ⟨m2, hm2, hx2⟩ := ih (c + 1) x hx
          exact ⟨m2, List.mem_cons_of_mem _ hm2, hx2⟩

theorem pick_exercises_length_muscle (o : RandomOracle) (ho : o.Valid)
    (c : Nat) (ms : List String) (obj : String)
    (hobj : obj = "hipertrofia" ∨ obj = "forca") :
    (pick_exercises o c ms obj).1.length = min 6 (glen ms) := by
  simp only [pick_exercises, if_pos hobj]
  rw [List.length_take, ho.2.2.1, gather_exercises_length o ho]

theorem pick_exercises_length_other (o : RandomOracle) (ho : o.Valid)
    (c : Nat) (ms : List String) (obj : String)
    (hobj : ¬(obj = "hipertrofia" ∨ obj = "forca")) :
    (pick_exercises o c ms obj).1.length = 5 := by
  simp only [pick_exercises, if_neg hobj]
  exact ho.1 c cardio_exercises 5 (by decide)

theorem pick_exercises_mem_muscle (o : RandomOracle) (ho : o.Valid)
    (c : Nat) (ms : List String) (obj : String)
    (hobj : obj = "hipertrofia" ∨ obj = "forca") (x : String)
    (hx : x ∈ (pick_exercises o c ms obj).1) :
    ∃ m ∈ ms, x ∈ muscle_choices m := by
  simp only [pick_exercises, if_pos hobj] at hx
  exact gather_exercises_mem o ho ms c x
    (ho.2.2.2 _ _ _ (List.take_subset _ _ hx))

theorem pick_exercises_mem_other (o : RandomOracle) (ho : o.Valid)
    (c : Nat) (ms : List String) (obj : String)
    (hobj : ¬(obj = "hipertrofia" ∨ obj = "forca")) (x : String)
    (hx : x ∈ (pick_exercises o c ms obj).1) :
    x ∈ cardio_exercises := by
  simp only [pick_exercises, if_neg hobj] at hx
  exact ho.2.1 _ _ _ _ hx

/-! Helper lemmas about the session and week loops of `generate_plan`. -/

theorem build_sessions_length (o : RandomOracle) (g : String) :
    ∀ (days : List Nat) (sg c : Nat),
      (build_sessions o g days sg c).1.length
        = min days.length (total_sessions - sg) := by
  intro days
  induction days with
  | nil => intro sg c; simp [build_sessions]
  | cons d rest ih =>
      intro sg c
      by_cases h : total_sessions ≤ sg
      · simp only [build_sessions, if_pos h, List.length_nil, List.length_cons]
        simp only [total_sessions] at h ⊢
        omega
      · simp only [build_sessions, if_neg h, List.length_cons, ih]
        simp only [total_sessions] at h ⊢
        omega

theorem build_sessions_sg (o : RandomOracle) (g : String) :
    ∀ (days : List Nat) (sg c : Nat),
      (build_sessions o g days sg c).2.1
        = sg + (build_sessions o g days sg c).1.length := by
  intro days
  induction days with
  | nil => intro sg c; simp [build_sessions]
  | cons d rest ih =>
      intro sg c
      by_cases h : total_sessions ≤ sg
      · simp [build_sessions, if_pos h]
      · simp only [build_sessions, if_neg h, List.length_cons, ih]
        omega

theorem build_sessions_get (o : RandomOracle) (g : String) :
    ∀ (days : List Nat) (sg c k : Nat) (s : Session),
      ((build_sessions o g days sg c).1)[k]? = some s →
      s.name = (split_at_counter g (sg + k)).name ∧
      s.focus = (split_at_counter g (sg + k)).focus ∧
      ∃ c2, s.exercises =
        ((pick_exercises o c2 (split_at_counter g (sg + k)).muscles g).1).map
          (make_prescription g) := by
  intro days
  induction days with
  | nil => intro sg c k s hs; simp [build_sessions] at hs
  | cons d rest ih =>
      intro sg c k s hs
      by_cases h : total_sessions ≤ sg
      · simp [build_sessions, if_pos h] at hs
      · simp only [build_sessions, if_neg h] at hs
        cases k with
        | zero =>
            simp only [List.getElem?_cons_zero, Option.some_inj] at hs
            subst hs
            exact ⟨rfl, rfl, c, rfl⟩
        | succ k =>
            simp only [List.getElem?_cons_succ] at hs
            have h1 : sg + 1 + k = sg + (k + 1) := by omega
            have := ih (sg + 1) _ k s hs
            rw [h1] at this
            exact this

theorem build_weeks_flat_get (o : RandomOracle) (g : String) (f : Nat) :
    ∀ (ws : List Nat) (sg c k : Nat) (s : Session),
      (((build_weeks o g f ws sg c).1.map Week.sessions).flatten)[k]? = some s →
      s.name = (split_at_counter g (sg + k)).name ∧
      s.focus = (split_at_counter g (sg + k)).focus ∧
      ∃ c2, s.exercises =
        ((pick_exercises o c2 (split_at_counter g (sg + k)).muscles g).1).map
          (make_prescription g) := by
  intro ws
  induction ws with
  | nil => intro sg c k s hs; simp [build_weeks] at hs
  | cons w rest ih =>
      intro sg c k s hs
      by_cases hbreak :
          total_sessions ≤ (build_sessions o g (List.range' 1 f) sg c).2.1
      · simp only [build_weeks, if_pos hbreak, List.map_cons, List.map_nil,
          List.flatten_cons, List.flatten_nil, List.append_nil] at hs
        exact build_sessions_get o g _ sg c k s hs
      · simp only [build_weeks, if_neg hbreak, List.map_cons,
          List.flatten_cons] at hs
        rw [List.getElem?_append] at hs
        by_cases hk : k < (build_sessions o g (List.range' 1 f) sg c).1.length
        · rw [if_pos hk] at hs
          exact build_sessions_get o g _ sg c k s hs
        · rw [if_neg hk] at hs
          have h2 := ih _ _ _ s hs
          have h3 : (build_sessions o g (List.range' 1 f) sg c).2.1
              + (k - (build_sessions o g (List.range' 1 f) sg c).1.length)
              = sg + k := by
            rw [build_sessions_sg]
            omega
          rw [h3] at h2
          exact h2

theorem build_weeks_lens (o : RandomOracle) (g : String) (f : Nat) :
    ∀ (ws : List Nat) (sg c : Nat),
      ((build_weeks o g f ws sg c).1.map (fun w => w.sessions.length))
        = week_lens f ws.length sg := by
  intro ws
  induction ws with
  | nil => intro sg c; simp [build_weeks, week_lens]
  | cons w rest ih =>
      intro sg c
      have hlen : (build_sessions o g (List.range' 1 f) sg c).1.length
          = min f (total_sessions - sg) := by
        rw [build_sessions_length, List.length_range']
      have hsg : (build_sessions o g (List.range' 1 f) sg c).2.1
          = sg + min f (total_sessions - sg) := by
        rw [build_sessions_sg, hlen]
      by_cases hbreak :
          total_sessions ≤ (build_sessions o g (List.range' 1 f) sg c).2.1
      · have hcond : total_sessions ≤ sg + min f (total_sessions - sg) := by
          rw [← hsg]; exact hbreak
        simp only [build_weeks, if_pos hbreak, List.map_cons, List.map_nil,
          List.length_cons, week_lens, if_pos hcond, hlen]
      · have hcond : ¬ total_sessions ≤ sg + min f (total_sessions - sg) := by
          rw [← hsg]; exact hbreak
        simp only [build_weeks, if_neg hbreak, List.map_cons,
          List.length_cons, week_lens, if_neg hcond, hlen, ih]
        rw [hsg]

theorem week_lens_sum (f : Nat) :
    ∀ (n sg : Nat),
      (week_lens f n sg).sum = min (f * n) (total_sessions - sg) := by
  intro n
  induction n with
  | zero => intro sg; simp [week_lens, total_sessions]
  | succ n ih =>
      intro sg
      have hfle : f ≤ f * (n + 1) := by
        have := Nat.mul_le_mul_left f (Nat.succ_le_succ (Nat.zero_le n))
        simpa using this
      have hmul : f * (n + 1) = f * n + f := Nat.mul_succ f n
      simp only [week_lens]
      by_cases hc : total_sessions ≤ sg + min f (total_sessions - sg)
      · rw [if_pos hc]
        simp only [List.sum_cons, List.sum_nil, total_sessions] at *
        omega
      · rw [if_neg hc]
        simp only [List.sum_cons, ih]
        simp only [total_sessions] at *
        omega

theorem week_lens_replicate (f : Nat) :
    ∀ (m sg : Nat), sg + f * m < total_sessions →
      total_sessions ≤ sg + f * (m + 1) →
      week_lens f (m + 1) sg
        = List.replicate m f ++ [total_sessions - sg - f * m] := by
  intro m
  induction m with
  | zero =>
      intro sg h1 h2
      have hstep : week_lens f 1 sg
          = if total_sessions ≤ sg + min f (total_sessions - sg)
            then [min f (total_sessions - sg)]
            else (min f (total_sessions - sg))
              :: week_lens f 0 (sg + min f (total_sessions - sg)) := rfl
      have ht : min f (total_sessions - sg) = total_sessions - sg := by
        simp only [total_sessions] at *; omega
      rw [hstep, ht, if_pos (by simp only [total_sessions] at *; omega)]
      simp only [List.replicate_zero, List.nil_append, Nat.mul_zero,
        Nat.sub_zero]
  | succ m ih =>
      intro sg h1 h2
      have hm1 : f * (m + 1) = f * m + f := Nat.mul_succ f m
      have hm2 : f * (m + 1 + 1) = f * (m + 1) + f := Nat.mul_succ f (m + 1)
      have hstep : week_lens f (m + 1 + 1) sg
          = if total_sessions ≤ sg + min f (total_sessions - sg)
            then [min f (total_sessions - sg)]
            else (min f (total_sessions - sg))
              :: week_lens f (m + 1) (sg + min f (total_sessions - sg)) := rfl
      have ht : min f (total_sessions - sg) = f := by
        simp only [total_sessions] at *; omega
      have hih := ih (sg + f)
        (by simp only [total_sessions] at *; omega)
        (by simp only [total_sessions] at *; omega)
      rw [hstep, ht, if_neg (by simp only [total_sessions] at *; omega), hih,
        List.replicate_succ, List.cons_append]
      have hlast : total_sessions - (sg + f) - f * m
          = total_sessions - sg - f * (m + 1) := by
        simp only [total_sessions] at *; omega
      rw [hlast]

theorem weeks_div_bounds (f : Nat) (hf : 1 ≤ f) :
    1 ≤ (total_sessions + f - 1) / f ∧
    f * ((total_sessions + f - 1) / f - 1) < total_sessions ∧
    total_sessions ≤ f * ((total_sessions + f - 1) / f) := by
  have hdm := Nat.div_add_mod (total_sessions + f - 1) f
  have hml : (total_sessions + f - 1) % f < f := Nat.mod_lt _ (by omega)
  have h1 : 1 ≤ (total_sessions + f - 1) / f := by
    rw [Nat.le_div_iff_mul_le (by omega)]
    simp only [total_sessions]
    omega
  have hmul : f * ((total_sessions + f - 1) / f)
      = f * ((total_sessions + f - 1) / f - 1) + f := by
    have he : (total_sessions + f - 1) / f - 1 + 1
        = (total_sessions + f - 1) / f := by omega
    calc f * ((total_sessions + f - 1) / f)
        = f * ((total_sessions + f - 1) / f - 1 + 1) := by rw [he]
      _ = f * ((total_sessions + f - 1) / f - 1) + f := Nat.mul_succ f _
  refine ⟨h1, ?_, ?_⟩
  · simp only [total_sessions] at *
    omega
  · simp only [total_sessions] at *
    omega

theorem weeks_eq_one_of_big (f : Nat) (hf : 12 < f) :
    (total_sessions + f - 1) / f = 1 := by
  have hlt : (total_sessions + f - 1) / f < 2 := by
    rw [Nat.div_lt_iff_lt_mul (by omega)]
    simp only [total_sessions]
    omega
  have hge : 1 ≤ (total_sessions + f - 1) / f := by
    rw [Nat.le_div_iff_mul_le (by omega)]
    simp only [total_sessions]
    omega
  omega

theorem generate_plan_weeks_eq (o : RandomOracle) (p : UserProfile)
    (a : AnalyticsRecord) :
    (generate_plan o p a).overview.macrocycle_length_weeks
      = (total_sessions + p.training_frequency - 1) / p.training_frequency :=
  rfl

theorem generate_plan_lens (o : RandomOracle) (p : UserProfile)
    (a : AnalyticsRecord) :
    (generate_plan o p a).training_weeks.map (fun w => w.sessions.length)
      = week_lens p.training_frequency
          ((total_sessions + p.training_frequency - 1) / p.training_frequency)
          0 := by
  show (build_weeks o p.primary_goal p.training_frequency
      (List.range' 1 ((total_sessions + p.training_frequency - 1)
        / p.training_frequency)) 0 0).1.map (fun w => w.sessions.length) = _
  rw [build_weeks_lens, List.length_range']

theorem plan_sessions_length_eq (o : RandomOracle) (p : UserProfile)
    (a : AnalyticsRecord) :
    (plan_sessions (generate_plan o p a)).length
      = (week_lens p.training_frequency
          ((total_sessions + p.training_frequency - 1) / p.training_frequency)
          0).sum := by
  rw [← generate_plan_lens o p a]
  simp only [plan_sessions, List.length_flatten, List.map_map]
  rfl

theorem plan_sessions_get (o : RandomOracle) (p : UserProfile)
    (a : AnalyticsRecord) (k : Nat) (s : Session)
    (hs : (plan_sessions (generate_plan o p a))[k]? = some s) :
    s.name = (split_at_counter p.primary_goal k).name ∧
    s.focus = (split_at_counter p.primary_goal k).focus ∧
    ∃ c2, s.exercises =
      ((pick_exercises o c2 (split_at_counter p.primary_goal k).muscles
        p.primary_goal).1).map (make_prescription p.primary_goal) := by
  have h := build_weeks_flat_get o p.primary_goal p.training_frequency
    (List.range' 1 ((total_sessions + p.training_frequency - 1)
      / p.training_frequency)) 0 0 k s hs
  simpa using h

theorem glen_split_at_counter (g : String)
    (hg : g = "hipertrofia" ∨ g = "forca") (k : Nat) :
    4 ≤ glen ((split_at_counter g k).muscles) := by
  rcases hg with h | h <;> subst h
  · have h6 : k % 6 = 0 ∨ k % 6 = 1 ∨ k % 6 = 2 ∨ k % 6 = 3 ∨ k % 6 = 4 ∨
        k % 6 = 5 := by omega
    have hl : (splits_for "hipertrofia").length = 6 := rfl
    unfold split_at_counter
    rw [hl]
    rcases h6 with h | h | h | h | h | h <;> rw [h] <;> decide
  · have h4 : k % 4 = 0 ∨ k % 4 = 1 ∨ k % 4 = 2 ∨ k % 4 = 3 := by omega
    have hl : (splits_for "forca").length = 4 := rfl
    unfold split_at_counter
    rw [hl]
    rcases h4 with h | h | h | h <;> rw [h] <;> decide

theorem make_prescription_exercise (g : String) (ex : String) :
    (make_prescription g ex).exercise = ex := by
  unfold make_prescription
  repeat' split
  all_goals rfl

theorem join_lines_length_ge (a : String) (l : List String) :
    a.length ≤ (join_lines (a :: l)).length := by
  cases l with
  | nil => exact Nat.le_refl _
  | cons b rest =>
      show a.length ≤ (a ++ "\n" ++ join_lines (b :: rest)).length
      rw [String.length_append, String.length_append]
      omega

theorem render_length_pos (pl : Plan) :
    0 < (render_plan_markdown pl).length := by
  simp only [render_plan_markdown]
  rw [List.singleton_append]
  calc (0 : Nat) < ("## Visão geral" : String).length := by decide
    _ ≤ _ := join_lines_length_ge _ _

/-! Claim theorems. -/

/-- C1: for every goal string and every training frequency `f` in `[1,7]`,
the total number of sessions summed across all weeks of the plan returned by
`generate_plan` equals exactly 12; and for every `f > 12` the plan has
`weeks = 1` and the total session count never exceeds 12. -/
theorem claim1_total_sessions (o : RandomOracle) (p : UserProfile)
    (a : AnalyticsRecord) :
    (1 ≤ p.training_frequency → p.training_frequency ≤ 7 →
      (plan_sessions (generate_plan o p a)).length = 12) ∧
    (12 < p.training_frequency →
      (generate_plan o p a).overview.macrocycle_length_weeks = 1 ∧
      (plan_sessions (generate_plan o p a)).length ≤ 12) := by
  constructor
  · intro hf _
    rw [plan_sessions_length_eq, week_lens_sum]
    have hb := (weeks_div_bounds p.training_frequency hf).2.2
    simp only [total_sessions] at *
    omega
  · intro hf
    have hw := weeks_eq_one_of_big p.training_frequency hf
    refine ⟨?_, ?_⟩
    · rw [generate_plan_weeks_eq, hw]
    · rw [plan_sessions_length_eq, week_lens_sum, hw]
      simp only [total_sessions]
      omega

/-- Witness for C1 at frequency 3 (total is 12) and at frequency 13
(one week, at most 12 sessions). -/
theorem claim1_witness :
    (plan_sessions (generate_plan takeOracle (demo_profile "hipertrofia" 3)
      demo_analytics)).length = 12 ∧
    ((generate_plan takeOracle (demo_profile "hipertrofia" 13)
        demo_analytics).overview.macrocycle_length_weeks = 1 ∧
      (plan_sessions (generate_plan takeOracle (demo_profile "hipertrofia" 13)
        demo_analytics)).length ≤ 12) :=
  ⟨(claim1_total_sessions takeOracle (demo_profile "hipertrofia" 3)
      demo_analytics).1 (by decide) (by decide),
   (claim1_total_sessions takeOracle (demo_profile "hipertrofia" 13)
      demo_analytics).2 (by decide)⟩

/-- C2: for every frequency `f ≥ 1`, `generate_plan` returns exactly
`ceil(12/f)` weeks (stated as `(12 + f - 1) / f` together with the ceiling
characterization `f * (weeks - 1) < 12 ≤ f * weeks`), every week except the
last holds exactly `f` sessions, and the last week holds
`12 - f * (weeks - 1)` sessions, which is at most `f` (and nonnegative,
being a natural number). -/
theorem claim2_week_distribution (o : RandomOracle) (p : UserProfile)
    (a : AnalyticsRecord) (f : Nat) (hf : 1 ≤ f)
    (hpf : p.training_frequency = f) :
    (generate_plan o p a).training_weeks.length = (12 + f - 1) / f ∧
    f * ((12 + f - 1) / f - 1) < 12 ∧
    12 ≤ f * ((12 + f - 1) / f) ∧
    (generate_plan o p a).training_weeks.map (fun w => w.sessions.length)
      = List.replicate ((12 + f - 1) / f - 1) f
        ++ [12 - f * ((12 + f - 1) / f - 1)] ∧
    12 - f * ((12 + f - 1) / f - 1) ≤ f := by
  have h12 : (12 : Nat) = total_sessions := rfl
  simp only [h12]
  obtain ⟨h1, h2, h3⟩ := weeks_div_bounds f hf
  have hW : (total_sessions + f - 1) / f - 1 + 1
      = (total_sessions + f - 1) / f := by omega
  have hmm : f * ((total_sessions + f - 1) / f - 1 + 1)
      = f * ((total_sessions + f - 1) / f) := by rw [hW]
  have hms : f * ((total_sessions + f - 1) / f - 1 + 1)
      = f * ((total_sessions + f - 1) / f - 1) + f :=
    Nat.mul_succ f _
  have hrep := week_lens_replicate f ((total_sessions + f - 1) / f - 1) 0
    (by omega) (by omega)
  rw [hW] at hrep
  simp only [Nat.zero_add, Nat.sub_zero] at hrep
  have hmap := generate_plan_lens o p a
  rw [hpf] at hmap
  have hlenmap : ((generate_plan o p a).training_weeks.map
      (fun w => w.sessions.length)).length
      = (generate_plan o p a).training_weeks.length := List.length_map _ _
  rw [hmap, hrep] at hlenmap
  simp only [List.length_append, List.length_replicate,
    List.length_cons, List.length_nil] at hlenmap
  refine ⟨?_, h2, h3, ?_, ?_⟩
  · omega
  · rw [hmap, hrep]
  · omega

/-- Witness for C2 at the strength frequency-5 scenario: 3 weeks with
session distribution `[5, 5, 2]`. -/
theorem claim2_witness :
    ((generate_plan takeOracle (demo_profile "forca" 5)
        demo_analytics).training_weeks.length = (12 + 5 - 1) / 5 ∧
      5 * ((12 + 5 - 1) / 5 - 1) < 12 ∧
      12 ≤ 5 * ((12 + 5 - 1) / 5) ∧
      (generate_plan takeOracle (demo_profile "forca" 5)
          demo_analytics).training_weeks.map (fun w => w.sessions.length)
        = List.replicate ((12 + 5 - 1) / 5 - 1) 5
          ++ [12 - 5 * ((12 + 5 - 1) / 5 - 1)] ∧
      12 - 5 * ((12 + 5 - 1) / 5 - 1) ≤ 5) ∧
    (generate_plan takeOracle (demo_profile "forca" 5)
        demo_analytics).training_weeks.map (fun w => w.sessions.length)
      = [5, 5, 2] :=
  ⟨claim2_week_distribution takeOracle (demo_profile "forca" 5)
      demo_analytics 5 (by decide) rfl,
   by decide⟩

/-- C3 counterexample: for the unrecognized goal "yoga", the scheduler does
not fall back to the hypertrophy split templates and prescriptions — the
first session is the fat-loss split "Circuito A" (not a hypertrophy
template name) with the conditioning prescription of 3 sets, while
hypertrophy prescriptions use 4 sets. -/
theorem claim3_counterexample :
    (demo_profile "yoga" 3).primary_goal
        ∉ ["hipertrofia", "emagrecimento", "forca", "condicionamento"] ∧
    ((plan_sessions (generate_plan takeOracle (demo_profile "yoga" 3)
        demo_analytics))[0]?).map
      (fun s => (s.name, s.exercises.map (fun e => e.sets)))
      = some ("Circuito A", [3, 3, 3, 3, 3]) ∧
    ¬ ("Circuito A" ∈ hypertrophy_splits.map Split.name) ∧
    (make_prescription "hipertrofia" "Burpees").sets = 4 := by
  decide

/-- C3 (amended): for every goal whose normalization lies outside the
recognized set, the metrics calculation falls back to the hypertrophy
preset, while the plan scheduler falls back to the fat-loss
(`emagrecimento`) split templates, the cardio exercise selection, and the
conditioning prescription — not to the hypertrophy behavior. -/
theorem claim3_unknown_goal_fallback (g : String)
    (hg : normalizar_objetivo g
        ∉ ["hipertrofia", "emagrecimento", "forca", "condicionamento"]) :
    preset_for (normalizar_objetivo g) = preset_for "hipertrofia" ∧
    splits_for (normalizar_objetivo g) = emagrecimento_splits ∧
    (∀ ex, make_prescription (normalizar_objetivo g) ex
        = ⟨ex, 3, "10-15", "30-60s", ""⟩) ∧
    (∀ (o : RandomOracle) (c : Nat) (ms : List String),
      pick_exercises o c ms (normalizar_objetivo g)
        = (o.sample c cardio_exercises 5, c + 1)) := by
  simp only [List.mem_cons, List.not_mem_nil, or_false, not_or] at hg
  obtain ⟨h1, h2, h3, h4⟩ := hg
  refine ⟨?_, ?_, ?_, ?_⟩
  · unfold preset_for
    have hnone : goal_presets.lookup (normalizar_objetivo g) = none := by
      have b1 : (normalizar_objetivo g == "hipertrofia") = false :=
        beq_eq_false_iff_ne.mpr h1
      have b2 : (normalizar_objetivo g == "emagrecimento") = false :=
        beq_eq_false_iff_ne.mpr h2
      have b3 : (normalizar_objetivo g == "forca") = false :=
        beq_eq_false_iff_ne.mpr h3
      have b4 : (normalizar_objetivo g == "condicionamento") = false :=
        beq_eq_false_iff_ne.mpr h4
      simp [goal_presets, List.lookup, b1, b2, b3, b4]
    rw [hnone]
    rfl
  · unfold splits_for
    rw [if_neg h1, if_neg h3, if_neg h4]
  · intro ex
    unfold make_prescription
    rw [if_neg h1, if_neg h3, if_neg h2]
  · intro o c ms
    unfold pick_exercises
    rw [if_neg (not_or.mpr ⟨h1, h3⟩)]

/-- Witness for the amended C3 at the concrete unrecognized goal "yoga". -/
theorem claim3_witness :
    preset_for (normalizar_objetivo "yoga") = preset_for "hipertrofia" ∧
    splits_for (normalizar_objetivo "yoga") = emagrecimento_splits ∧
    make_prescription (normalizar_objetivo "yoga") "Burpees"
      = ⟨"Burpees", 3, "10-15", "30-60s", ""⟩ ∧
    pick_exercises takeOracle 0 [] (normalizar_objetivo "yoga")
      = (takeOracle.sample 0 cardio_exercises 5, 1) := by
  have h := claim3_unknown_goal_fallback "yoga" (by decide)
  exact ⟨h.1, h.2.1, h.2.2.1 "Burpees", h.2.2.2 takeOracle 0 []⟩

/-- C4: the split template assigned to the `k`-th session of the whole plan
(`k` counted 0-based across all weeks, never reset at a week boundary) is
the element at index `k mod (number of splits for that goal)` of that
goal's fixed-order split list. -/
theorem claim4_split_cycling (o : RandomOracle) (p : UserProfile)
    (a : AnalyticsRecord) (k : Nat) (s : Session)
    (hs : (plan_sessions (generate_plan o p a))[k]? = some s) :
    s.name = ((splits_for p.primary_goal).getD
        (k % (splits_for p.primary_goal).length) ⟨"", [], ""⟩).name ∧
    s.focus = ((splits_for p.primary_goal).getD
        (k % (splits_for p.primary_goal).length) ⟨"", [], ""⟩).focus := by
  have h := plan_sessions_get o p a k s hs
  exact ⟨h.1, h.2.1⟩

/-- Witness for C4: the session at flat index 7 of the hypertrophy
frequency-5 demo plan carries the split at index `7 mod 6 = 1`, which is
"Treino B - Costas e Bíceps", even though index 7 falls in the second
week. -/
theorem claim4_witness :
    (demo_session7.name = ((splits_for "hipertrofia").getD
        (7 % (splits_for "hipertrofia").length) ⟨"", [], ""⟩).name ∧
      demo_session7.focus = ((splits_for "hipertrofia").getD
        (7 % (splits_for "hipertrofia").length) ⟨"", [], ""⟩).focus) ∧
    demo_session7.name = "Treino B - Costas e Bíceps" :=
  ⟨claim4_split_cycling takeOracle (demo_profile "hipertrofia" 5)
      demo_analytics 7 demo_session7 (by decide),
   by decide⟩

/-- C5: for every outcome of the random draws, every hypertrophy or
strength session holds between 1 and 6 exercises, and every fat-loss or
conditioning session holds exactly 5 exercises. -/
theorem claim5_exercise_counts (o : RandomOracle) (ho : o.Valid)
    (p : UserProfile) (a : AnalyticsRecord) (s : Session)
    (hs : s ∈ plan_sessions (generate_plan o p a)) :
    ((p.primary_goal = "hipertrofia" ∨ p.primary_goal = "forca") →
      1 ≤ s.exercises.length ∧ s.exercises.length ≤ 6) ∧
    ((p.primary_goal = "emagrecimento" ∨ p.primary_goal = "condicionamento") →
      s.exercises.length = 5) := by
  obtain ⟨k, hk, hke⟩ := List.getElem_of_mem hs
  have hsome : (plan_sessions (generate_plan o p a))[k]? = some s := by
    rw [List.getElem?_eq_getElem hk, hke]
  obtain ⟨-, -, c2, hex⟩ := plan_sessions_get o p a k s hsome
  constructor
  · intro hg
    rw [hex, List.length_map, pick_exercises_length_muscle o ho _ _ _ hg]
    have h4 := glen_split_at_counter p.primary_goal hg k
    omega
  · intro hg
    have hng : ¬(p.primary_goal = "hipertrofia" ∨ p.primary_goal = "forca") := by
      rcases hg with h | h <;> rw [h] <;> decide
    rw [hex, List.length_map, pick_exercises_length_other o ho _ _ _ hng]

/-- Witness for C5: the first session of the hypertrophy frequency-5 demo
plan has between 1 and 6 exercises. -/
theorem claim5_witness :
    1 ≤ demo_session0.exercises.length ∧
    demo_session0.exercises.length ≤ 6 :=
  (claim5_exercise_counts takeOracle take_oracle_valid
      (demo_profile "hipertrofia" 5) demo_analytics demo_session0
      (by decide)).1 (Or.inl rfl)

/-- C6: for every outcome of the random draws, every exercise name of any
session comes from the catalog list of one of that session's split's target
muscle groups, or — for the goals without muscle targets — from the shared
cardio/functional list. -/
theorem claim6_exercise_membership (o : RandomOracle) (ho : o.Valid)
    (p : UserProfile) (a : AnalyticsRecord) (k : Nat) (s : Session)
    (hs : (plan_sessions (generate_plan o p a))[k]? = some s)
    (e : ExercisePrescription) (he : e ∈ s.exercises) :
    ((p.primary_goal = "hipertrofia" ∨ p.primary_goal = "forca") →
      ∃ m ∈ (split_at_counter p.primary_goal k).muscles,
        e.exercise ∈ muscle_choices m) ∧
    (¬(p.primary_goal = "hipertrofia" ∨ p.primary_goal = "forca") →
      e.exercise ∈ cardio_exercises) := by
  obtain ⟨-, -, c2, hex⟩ := plan_sessions_get o p a k s hs
  rw [hex] at he
  obtain ⟨x, hx, hxe⟩ := List.mem_map.mp he
  have hxex : e.exercise = x := by
    rw [← hxe, make_prescription_exercise]
  constructor
  · intro hg
    obtain ⟨m, hm, hmem⟩ := pick_exercises_mem_muscle o ho c2 _ _ hg x hx
    exact ⟨m, hm, by rw [hxex]; exact hmem⟩
  · intro hg
    rw [hxex]
    exact pick_exercises_mem_other o ho c2 _ _ hg x hx

/-- Witness for C6: the first exercise of the first session of the fat-loss
demo plan is a member of the cardio/functional catalog. -/
theorem claim6_witness :
    demo_exercise_fat.exercise ∈ cardio_exercises :=
  (claim6_exercise_membership takeOracle take_oracle_valid
      (demo_profile "emagrecimento" 4) demo_analytics 0 demo_session_fat
      (by decide) demo_exercise_fat (by decide)).2 (by decide)

/-- C7: `estimated_session_calories` equals
`round(weight × MET × duration, 1)` with the goal's preset constants, and
`estimated_weekly_calories` equals
`round(estimated_session_calories × frequency, 1)` — the already-rounded
per-session value is multiplied; in particular weight 80 with the
hypertrophy preset (MET 6.0, 1.2 h) gives 576.0 per session and, at
frequency 4, 2304.0 per week. -/
theorem claim7_calories (age : Int) (w : ℚ) (f : Nat) (g exp : String)
    (h : Option ℚ) :
    (ferramenta_matematica_treino age w f g h exp).estimated_session_calories
      = roundTo 1 (w * (preset_for (normalizar_objetivo g)).met
          * (preset_for (normalizar_objetivo g)).duration_hours) ∧
    (ferramenta_matematica_treino age w f g h exp).estimated_weekly_calories
      = roundTo 1
          ((ferramenta_matematica_treino age w f g h
              exp).estimated_session_calories * (f : ℚ)) ∧
    (ferramenta_matematica_treino 25 80 4 "hipertrofia" none
        "iniciante").estimated_session_calories = 576 ∧
    (ferramenta_matematica_treino 25 80 4 "hipertrofia" none
        "iniciante").estimated_weekly_calories = 2304 := by
  refine ⟨rfl, rfl, ?_, ?_⟩
  · show roundTo 1 (80 * (6.0 : ℚ) * 1.2) = 576
    norm_num [roundTo, round_eq]
  · show roundTo 1 (roundTo 1 (80 * (6.0 : ℚ) * 1.2) * ((4 : ℕ) : ℚ)) = 2304
    norm_num [roundTo, round_eq]

/-- C8: the `bmi` field is `none` exactly when no height is supplied
(heights obeying the documented `> 0` constraint); a supplied height
`x > 0` gives `round(weight / (x/100)², 2)`, and height 175 with weight 75
gives 24.49. -/
theorem claim8_bmi (age : Int) (w : ℚ) (f : Nat) (g exp : String)
    (h : Option ℚ) (hpos : ∀ x : ℚ, h = some x → 0 < x) :
    ((ferramenta_matematica_treino age w f g h exp).bmi = none ↔ h = none) ∧
    (∀ x : ℚ, 0 < x →
      (ferramenta_matematica_treino age w f g (some x) exp).bmi
        = some (roundTo 2 (w / (x / 100) ^ 2))) ∧
    (ferramenta_matematica_treino 30 75 3 "hipertrofia" (some 175)
        "iniciante").bmi = some (2449 / 100) := by
  refine ⟨?_, ?_, ?_⟩
  · cases h with
    | none => simp [ferramenta_matematica_treino]
    | some x =>
        have hx0 : ¬ x = 0 := ne_of_gt (hpos x rfl)
        simp [ferramenta_matematica_treino, hx0]
  · intro x hx
    have hx0 : ¬ x = 0 := ne_of_gt hx
    show (if x = 0 then none
      else some (roundTo 2 (w / (x / 100) ^ 2))) = _
    rw [if_neg hx0]
  · show some (roundTo 2 ((75 : ℚ) / ((175 : ℚ) / 100) ^ 2))
      = some (2449 / 100)
    norm_num [roundTo, round_eq]

/-- Witness for C8 at height 175 and weight 75: BMI 24.49. -/
theorem claim8_witness :
    (ferramenta_matematica_treino 30 75 3 "hipertrofia" (some 175)
        "iniciante").bmi = some (2449 / 100) :=
  (claim8_bmi 30 75 3 "hipertrofia" "iniciante" (some 175)
    (fun x hx => by
      have hx175 : (175 : ℚ) = x := by injection hx
      rw [← hx175]; norm_num)).2.2

/-- C9: under the documented constraints (frequency at least 1), the
checked variants of `ferramenta_matematica_treino` and `generate_plan` —
which return `none` wherever the Python body could raise — always succeed,
and `render_plan_markdown` (a total function of the typed payload) produces
nonempty output on every generated plan. -/
theorem claim9_no_exceptions (o : RandomOracle) (p : UserProfile)
    (a : AnalyticsRecord) (age : Int) (w : ℚ) (f : Nat) (g exp : String)
    (h : Option ℚ) (hf : 1 ≤ p.training_frequency) :
    ferramenta_matematica_treino_chk age w f g h exp
      = some (ferramenta_matematica_treino age w f g h exp) ∧
    generate_plan_chk o p a = some (generate_plan o p a) ∧
    0 < (render_plan_markdown (generate_plan o p a)).length := by
  refine ⟨?_, ?_, render_length_pos _⟩
  · unfold ferramenta_matematica_treino_chk
    rw [if_neg (by decide)]
    cases h with
    | none => rfl
    | some hc =>
        show (if hc ≠ 0 ∧ (hc / 100) ^ 2 = 0 then none
          else some (ferramenta_matematica_treino age w f g (some hc) exp))
          = some (ferramenta_matematica_treino age w f g (some hc) exp)
        rw [if_neg ?_]
        rintro ⟨hne, hsq⟩
        apply hne
        have hdiv : hc / 100 = 0 :=
          (pow_eq_zero_iff (two_ne_zero)).mp hsq
        rcases div_eq_zero_iff.mp hdiv with h0 | h0
        · exact h0
        · exact absurd h0 (by norm_num)
  · unfold generate_plan_chk
    rw [if_neg (by omega), if_neg ?_, if_neg ?_]
    · rintro ⟨-, h5⟩
      exact absurd h5 (by decide)
    · unfold splits_for
      split_ifs <;> decide

/-- Witness for C9 at a concrete profile with frequency 3. -/
theorem claim9_witness :
    ferramenta_matematica_treino_chk 25 80 4 "hipertrofia" none "iniciante"
      = some (ferramenta_matematica_treino 25 80 4 "hipertrofia" none
          "iniciante") ∧
    generate_plan_chk takeOracle (demo_profile "hipertrofia" 3)
        demo_analytics
      = some (generate_plan takeOracle (demo_profile "hipertrofia" 3)
          demo_analytics) ∧
    0 < (render_plan_markdown (generate_plan takeOracle
        (demo_profile "hipertrofia" 3) demo_analytics)).length :=
  claim9_no_exceptions takeOracle (demo_profile "hipertrofia" 3)
    demo_analytics 25 80 4 "hipertrofia" "iniciante" none (by decide)

/-- C10: `generate_plan` never reads its analytics argument, and the plan
depends on the profile only through `primary_goal` and
`training_frequency`: two calls with the same oracle, the same goal and the
same frequency return identical plans whatever the analytics records and
the remaining profile fields. -/
theorem claim10_analytics_independent (o : RandomOracle)
    (p p2 : UserProfile) (a a2 : AnalyticsRecord)
    (hg : p.primary_goal = p2.primary_goal)
    (hf : p.training_frequency = p2.training_frequency) :
    generate_plan o p a = generate_plan o p2 a2 := by
  unfold generate_plan
  rw [hg, hf]

/-- Witness for C10: profiles differing in age, weight, experience, height,
restrictions and notes, with entirely different analytics records, give the
same plan. -/
theorem claim10_witness :
    generate_plan takeOracle (demo_profile "hipertrofia" 3) demo_analytics
      = generate_plan takeOracle demo_profile2 demo_analytics2 :=
  claim10_analytics_independent takeOracle (demo_profile "hipertrofia" 3)
    demo_profile2 demo_analytics demo_analytics2 rfl rfl

end FitnessCoach
